import Mathlib

/-!
Verification development for the ESP8266 NAPT router firmware.

The definitions below are a shallow embedding of the C sources:
  - `src/user/router.c`     (port-map table, soft-AP network configuration,
                             WiFi event callback)
  - `src/user/esp_touch.c`  (ESP-TOUCH provisioning session)
  - `src/user/user_main.c`  (lifecycle controller: button interrupt, timers,
                             teardown)

External SDK calls (timer facility, DHCP server, NAT engine, GPIO) are
modelled by explicit state fields or by boolean outcome oracles passed as
parameters; machine integers are modelled as `Nat` (no overflow is relevant
to the verified properties).
-/

namespace NaptRouter

/-! ## Constants (user_config.h and SDK enums) -/

/-- `ESP_TOUCH_ATTEMPTS_LIMIT` from user_config.h: maximum number of
provisioning attempts before aborting. -/
def ESP_TOUCH_ATTEMPTS_LIMIT : Nat := 3

/-- SDK WiFi operation mode `NULL_MODE`. -/
def NULL_MODE : Nat := 0

/-- SDK WiFi operation mode `STATION_MODE`. -/
def STATION_MODE : Nat := 1

/-- SDK WiFi operation mode `SOFTAP_MODE`. -/
def SOFTAP_MODE : Nat := 2

/-- SDK WiFi operation mode `STATIONAP_MODE`. -/
def STATIONAP_MODE : Nat := 3

/-! ## Timer handles

An `os_timer_t *` handle is `Option Bool`: `none` is a NULL pointer (no
timer), `some armed` is an allocated timer whose armed flag is `armed`.
The helpers mirror the C idiom `if (timer) { os_timer_disarm(timer); ... }`:
they are no-ops on a NULL handle. -/

/-- `if (timer) { os_timer_disarm(timer); os_free(timer); timer = NULL; }` -/
def free_timer : Option Bool → Option Bool
  | some _ => none
  | none => none

/-- `if (timer) { os_timer_disarm(timer); }` -/
def disarm_timer : Option Bool → Option Bool
  | some _ => some false
  | none => none

/-- `if (timer) { os_timer_setfn(...); os_timer_arm(...); }` -/
def arm_timer : Option Bool → Option Bool
  | some _ => some true
  | none => none

theorem free_timer_eq_none (t : Option Bool) : free_timer t = none := by
  cases t <;> rfl

/-! ## Port-map table (router.c)

`portmap_init` (router.c:277-355) walks the eight statically configured
slots.  A slot is a record of the `PORTMAP_*_X` configuration macros; the
string macro `PORTMAP_DADDR_X` participates in the C truth test
`PORTMAP_PROTO_X && PORTMAP_MPORT_X && PORTMAP_DADDR_X && ...`, so it is
modelled as a `Nat` whose value `0` stands for the literal `0`
(disabled/NULL) configuration value.  The outcome of the external NAT
engine call `ip_portmap_add` is an oracle `add_ok`.  The result is the
returned `bool` together with the list of slots for which `ip_portmap_add`
was actually invoked, in program order. -/

structure PortmapSlot where
  enable : Nat
  proto : Nat
  mport : Nat
  daddr : Nat
  dport : Nat
  dir : Nat
deriving DecidableEq, Repr

/-- Shallow embedding of `portmap_init` (router.c:277-355).  The eight
unrolled `if (PORTMAP_ENABLE_X) { if (PROTO && MPORT && DADDR && DPORT &&
DIR) { if (!ip_portmap_add(...)) return false; } }` blocks are one
recursion over the slot list.  Note the C code returns `false` as soon as
one `ip_portmap_add` call fails, so later slots are not processed. -/
def portmap_init (add_ok : PortmapSlot → Bool) : List PortmapSlot → Bool × List PortmapSlot
  | [] => (true, [])
  | s :: rest =>
    if s.enable ≠ 0 then
      if s.proto ≠ 0 ∧ s.mport ≠ 0 ∧ s.daddr ≠ 0 ∧ s.dport ≠ 0 ∧ s.dir ≠ 0 then
        if add_ok s then
          ((portmap_init add_ok rest).1, s :: (portmap_init add_ok rest).2)
        else
          (false, [s])
      else
        portmap_init add_ok rest
    else
      portmap_init add_ok rest

/-- One entry of the NAT engine's `ip_portmap_table` (lwip NAPT patch);
fields as read and written by `portmap_update` (router.c:135-154). -/
structure PortmapEntry where
  valid : Nat
  proto : Nat
  maddr : Nat
  mport : Nat
  daddr : Nat
  dport : Nat
deriving DecidableEq, Repr

/-- Shallow embedding of `portmap_update` (router.c:135-154): for every
index of `ip_portmap_table`, if the entry is valid, its `maddr` field is
overwritten with the station interface's address; nothing else is written.
(The two early-return guards of the C function reject a NULL address
pointer and an uninitialized table; here the address is the pointee value
and the table is the list itself, so both are always present.) -/
def portmap_update (station_ip_addr : Nat) (table : List PortmapEntry) : List PortmapEntry :=
  table.map fun e => if e.valid ≠ 0 then { e with maddr := station_ip_addr } else e

/-! ## ESP-TOUCH provisioning session (esp_touch.c)

The module's static state: `esptouch_running`, `esptouch_success`,
`esptouch_attempt_count` and the `esptouch_timeout_timer` handle
(esp_touch.c:53-56). -/

structure EspTouchState where
  running : Bool
  success : Bool
  attempt_count : Nat
  timeout_timer : Option Bool
deriving DecidableEq, Repr

/-- The C statics' initial values: `running = false`, `success = false`,
`attempt_count = 1`, `timeout_timer = NULL` (esp_touch.c:53-56). -/
def esptouch_state0 : EspTouchState :=
  { running := false, success := false, attempt_count := 1, timeout_timer := none }

/-- `esptouch_is_running` (esp_touch.c:63-65). -/
def esptouch_is_running (e : EspTouchState) : Bool := e.running

/-- `esptouch_was_successful` (esp_touch.c:68-70). -/
def esptouch_was_successful (e : EspTouchState) : Bool := e.success

/-- `esptouch_success_cb` (esp_touch.c:78-89): disarm and free the timeout
timer if present, then clear `running` and set `success`. -/
def esptouch_success_cb (e : EspTouchState) : EspTouchState :=
  { e with timeout_timer := free_timer e.timeout_timer,
           running := false,
           success := true }

/-- `esptouch_fail_cb` (esp_touch.c:176-213): disarm the timer if present;
if the attempt count is below `ESP_TOUCH_ATTEMPTS_LIMIT`, increment it and
re-arm the timer (restarting the transport), otherwise free the timer and
clear `running` (`success` is left untouched). -/
def esptouch_fail_cb (e : EspTouchState) : EspTouchState :=
  if e.attempt_count < ESP_TOUCH_ATTEMPTS_LIMIT then
    { e with timeout_timer := arm_timer (disarm_timer e.timeout_timer),
             attempt_count := e.attempt_count + 1 }
  else
    { e with timeout_timer := free_timer (disarm_timer e.timeout_timer),
             running := false }

/-- `esptouch_disable` (esp_touch.c:220-233): stop the transport, free the
timer if present, clear `running` (`success` untouched). -/
def esptouch_disable (e : EspTouchState) : EspTouchState :=
  { e with timeout_timer := free_timer e.timeout_timer,
           running := false }

/-- `esptouch_init` (esp_touch.c:236-283): set `running`, clear `success`,
reset the attempt count to 1, allocate a fresh timeout timer (the
allocation outcome is the oracle `alloc_ok`; on failure the code continues
with a NULL handle) and arm it if present.  `esptouch_status_cb` is a
defined function, so the `smartconfig_start` branch is always taken. -/
def esptouch_init (alloc_ok : Bool) (e : EspTouchState) : EspTouchState :=
  { e with running := true,
           success := false,
           attempt_count := 1,
           timeout_timer := arm_timer (if alloc_ok then some false else none) }

/-- Events driving the provisioning module alone.  `timeout` is the timeout
timer firing (possible only while the timer is armed); `linkOver` is the
transport's `SC_STATUS_LINK_OVER` status (deliverable only while the
session is running, i.e. between `smartconfig_start` and the stop calls);
`disable` is a call to `esptouch_disable`; `start alloc_ok` is a call to
`esptouch_init` with the given timer-allocation outcome. -/
inductive EspTouchEvent
  | start (alloc_ok : Bool)
  | timeout
  | linkOver
  | disable
deriving DecidableEq, Repr

def esptouch_step : EspTouchEvent → EspTouchState → EspTouchState
  | .start a, e => esptouch_init a e
  | .timeout, e => if e.timeout_timer = some true then esptouch_fail_cb e else e
  | .linkOver, e => if e.running then esptouch_success_cb e else e
  | .disable, e => esptouch_disable e

/-- Reachable states of the provisioning module: fold the events over the
C statics' initial values. -/
def esptouch_run (evs : List EspTouchEvent) : EspTouchState :=
  evs.foldl (fun e ev => esptouch_step ev e) esptouch_state0

/-! ## Soft-AP network configuration (router.c)

`softap_network_config` (router.c:177-225) performs a chain of SDK calls;
each call's success is an oracle bit in `NetOracle`.  The function's
observable behaviour is its returned `bool` together with the trace of
network-stack calls actually issued, in program order. -/

/-- An IPv4 address as four octets, the view taken by the `ip4_addr4`
accessor used at router.c:189. -/
structure IpAddr where
  o1 : Nat
  o2 : Nat
  o3 : Nat
  o4 : Nat
deriving DecidableEq, Repr

/-- The static network configuration from user_config.h, already parsed
from its string form (parsing by `ipaddr_addr` is external lwip code). -/
structure ApNetConfig where
  network_addr : IpAddr
  network_netmask : IpAddr
  network_gw : IpAddr
  dhcp_start_addr : IpAddr
  dhcp_stop_addr : IpAddr
deriving DecidableEq, Repr

/-- Success/failure outcomes of the four fallible SDK calls made by
`softap_network_config`. -/
structure NetOracle where
  dhcps_stop_ok : Bool
  set_ip_info_ok : Bool
  set_dhcps_lease_ok : Bool
  dhcps_start_ok : Bool
deriving DecidableEq, Repr

/-- Network-stack calls issued by `softap_network_config`, with their
payloads. -/
inductive NetCall
  | dhcpsStop
  | setIpInfo (ip netmask gw : IpAddr)
  | setDhcpsLease (startIp stopIp : IpAddr)
  | dhcpsStart
  | naptEnable (ip : IpAddr)
  | setBroadcastIf
deriving DecidableEq, Repr

/-- The soft-AP's own address as computed at router.c:188-189: the parsed
`WIFI_AP_NETWORK_ADDR`, then `ip4_addr4(&softap_info.ip) = 1` overwrites
the fourth (host) octet with 1. -/
def softap_own_ip (cfg : ApNetConfig) : IpAddr :=
  { cfg.network_addr with o4 := 1 }

/-- Shallow embedding of `softap_network_config` (router.c:177-225): stop
the DHCP server, set the IP info (with the host octet forced to 1), set
the DHCP lease range, restart the DHCP server; each failing step logs and
falls through to `return false` without issuing the later calls.  Only on
full success are `ip_napt_enable` and `wifi_set_broadcast_if` issued and
`true` returned. -/
def softap_network_config (cfg : ApNetConfig) (orc : NetOracle) : Bool × List NetCall :=
  if orc.dhcps_stop_ok then
    if orc.set_ip_info_ok then
      if orc.set_dhcps_lease_ok then
        if orc.dhcps_start_ok then
          (true, [.dhcpsStop,
                  .setIpInfo (softap_own_ip cfg) cfg.network_netmask cfg.network_gw,
                  .setDhcpsLease cfg.dhcp_start_addr cfg.dhcp_stop_addr,
                  .dhcpsStart,
                  .naptEnable (softap_own_ip cfg),
                  .setBroadcastIf])
        else
          (false, [.dhcpsStop,
                   .setIpInfo (softap_own_ip cfg) cfg.network_netmask cfg.network_gw,
                   .setDhcpsLease cfg.dhcp_start_addr cfg.dhcp_stop_addr,
                   .dhcpsStart])
      else
        (false, [.dhcpsStop,
                 .setIpInfo (softap_own_ip cfg) cfg.network_netmask cfg.network_gw,
                 .setDhcpsLease cfg.dhcp_start_addr cfg.dhcp_stop_addr])
    else
      (false, [.dhcpsStop,
               .setIpInfo (softap_own_ip cfg) cfg.network_netmask cfg.network_gw])
  else
    (false, [.dhcpsStop])

/-- `softap_init` (router.c:232-272) reduced to its success condition: the
operation mode must be at least `SOFTAP_MODE`, obtaining the MAC address
must succeed, and `wifi_softap_set_config` must succeed (the latter two
are SDK oracles); the configuration it writes is otherwise external. -/
def softap_init (opmode : Nat) (mac_ok set_config_ok : Bool) : Bool :=
  if SOFTAP_MODE ≤ opmode then
    if mac_ok then set_config_ok else false
  else
    false

/-! ## Lifecycle controller (user_main.c)

The process-wide state touched by user_main.c and the callbacks it
registers.  GPIO levels become booleans; the external NAT table, DNS
setting and the UDP responder's sockets stay outside the state (only the
responder's enabled/disabled status is kept, since teardown toggles it). -/

structure SysState where
  /-- Button interrupt delivery enabled (`ETS_GPIO_INTR_ENABLE` state). -/
  intr_enabled : Bool
  /-- Green status LED level (true = on). -/
  status_led : Bool
  /-- Output-power relay level (true = energized), GPIO 12. -/
  output_power : Bool
  /-- `led_blink_timer` handle (user_main.c:78). -/
  led_blink_timer : Option Bool
  /-- `router_conn_timeout_wdt` handle (user_main.c:78). -/
  router_conn_timeout_wdt : Option Bool
  /-- The `esptouch_wait_timer` poll timer allocated in `router_enable`. -/
  esptouch_wait_timer : Option Bool
  /-- UDP meta-data/vital-sign responder enabled (`device_info_init` /
  `device_info_disable`). -/
  device_info_on : Bool
  /-- WiFi event handler registered (`wifi_set_event_handler_cb` with a
  non-NULL argument). -/
  event_handler_set : Bool
  /-- `router_connected` (router.c:57). -/
  router_connected : Bool
  /-- WiFi operation mode. -/
  opmode : Nat
  /-- The ESP-TOUCH module's static state. -/
  esp : EspTouchState
deriving DecidableEq, Repr

/-- `status_led_on` (user_main.c:209-211). -/
def status_led_on (s : SysState) : SysState := { s with status_led := true }

/-- `status_led_off` (user_main.c:214-216). -/
def status_led_off (s : SysState) : SysState := { s with status_led := false }

/-- `output_power_on` (user_main.c:219-221). -/
def output_power_on (s : SysState) : SysState := { s with output_power := true }

/-- `output_power_off` (user_main.c:224-226). -/
def output_power_off (s : SysState) : SysState := { s with output_power := false }

/-- `router_disable_cb` (user_main.c:86-119): stop the responder, drop the
station association, set the operation mode to `NULL_MODE`, unregister the
WiFi event handler, disarm+free the blink and watchdog timers (each
guarded by a NULL check), switch the status LED off, then clear the
pending interrupt latch and re-enable the button interrupt.  The
output-power relay is not touched. -/
def router_disable_cb (s : SysState) : SysState :=
  { s with
    device_info_on := false,
    opmode := NULL_MODE,
    event_handler_set := false,
    led_blink_timer := free_timer s.led_blink_timer,
    router_conn_timeout_wdt := free_timer s.router_conn_timeout_wdt,
    status_led := false,
    intr_enabled := true }

/-- `led_blink_timerfunc` (user_main.c:192-202): read the LED's GPIO level
and toggle it. -/
def led_blink_timerfunc (s : SysState) : SysState :=
  if s.status_led then status_led_off s else status_led_on s

/-- `is_connected` (router.c:64-66). -/
def is_connected (s : SysState) : Bool := s.router_connected

/-- `router_conn_timeout_wdtfunc` (user_main.c:138-143): if the station
interface is not connected, tear everything down. -/
def router_conn_timeout_wdtfunc (s : SysState) : SysState :=
  if is_connected s then s else router_disable_cb s

/-- Timer-allocation outcomes of one `router_enable` call: `os_zalloc` for
the blink timer, the watchdog handle, the ESP-TOUCH poll timer, and (inside
`esptouch_init`) the session timeout timer. -/
structure AllocOutcome where
  blink_alloc_ok : Bool
  wdt_alloc_ok : Bool
  wait_alloc_ok : Bool
  esp_alloc_ok : Bool
deriving DecidableEq, Repr

/-- First part of `router_enable` (user_main.c:238-250): if the blink timer
handle is NULL, allocate it and (on success) arm it periodically;
allocation failure only loses the blink indication. -/
def alloc_blink (p : AllocOutcome) (s : SysState) : SysState :=
  if s.led_blink_timer = none then
    if p.blink_alloc_ok then { s with led_blink_timer := some true } else s
  else
    s

/-- Second part of `router_enable` (user_main.c:254-256): if the watchdog
handle is NULL, allocate it (zeroed, i.e. unarmed). -/
def alloc_wdt (p : AllocOutcome) (s : SysState) : SysState :=
  if s.router_conn_timeout_wdt = none then
    if p.wdt_alloc_ok then { s with router_conn_timeout_wdt := some false } else s
  else
    s

/-- `router_enable` (user_main.c:233-285): allocate/arm the blink timer,
allocate the watchdog handle, and — if the watchdog handle and the freshly
allocated poll timer are available — arm the 500 ms ESP-TOUCH poll timer,
run `router_init` (router.c:358-370: clear `router_connected`, load the
port-map table into the external NAT engine, register the WiFi event
handler) and `esptouch_init` (which also disconnects the station and sets
`STATION_MODE`).  On either allocation failure, `router_disable_cb` is
called and `false` returned. -/
def router_enable (p : AllocOutcome) (s : SysState) : SysState :=
  if (alloc_wdt p (alloc_blink p s)).router_conn_timeout_wdt ≠ none then
    if p.wait_alloc_ok then
      { alloc_wdt p (alloc_blink p s) with
          esptouch_wait_timer := some true,
          router_connected := false,
          event_handler_set := true,
          opmode := STATION_MODE,
          esp := esptouch_init p.esp_alloc_ok (alloc_wdt p (alloc_blink p s)).esp }
    else
      router_disable_cb (alloc_wdt p (alloc_blink p s))
  else
    router_disable_cb (alloc_wdt p (alloc_blink p s))

/-- `button_actuated_interrupt_handler` (user_main.c:127-133): the first
action is `ETS_GPIO_INTR_DISABLE()`, then `router_enable` runs. -/
def button_actuated_interrupt_handler (p : AllocOutcome) (s : SysState) : SysState :=
  router_enable p { s with intr_enabled := false }

/-- `esptouch_over_timerfunc` (user_main.c:149-189), dispatched while the
poll timer is armed: if ESP-TOUCH is no longer running, disarm and free the
poll timer; on success free the blink timer, turn the status LED on, arm
the periodic watchdog and start the responder and vital-sign broadcasts;
on failure call `router_disable_cb`. -/
def esptouch_over_timerfunc (s : SysState) : SysState :=
  if esptouch_is_running s.esp then
    s
  else
    if esptouch_was_successful s.esp then
      { s with esptouch_wait_timer := none,
               led_blink_timer := free_timer s.led_blink_timer,
               status_led := true,
               router_conn_timeout_wdt := some true,
               device_info_on := true }
    else
      router_disable_cb { s with esptouch_wait_timer := none }

/-- The WiFi events of `wifi_handle_event_cb` (router.c:74-125) that carry
state changes; the remaining cases only log.  `gotIp` carries the SDK
oracles of the configuration chain it triggers, and the station address
delivered by the host's DHCP server. -/
inductive WifiEvent
  | gotIp (opmode_ok mac_ok set_config_ok : Bool) (cfg : ApNetConfig) (orc : NetOracle)
  | staDisconnected
deriving DecidableEq, Repr

/-- `wifi_handle_event_cb` (router.c:74-125).  On `EVENT_STAMODE_GOT_IP`:
update the external port-map table (`portmap_update`, not part of this
state), switch to `STATIONAP_MODE`, and only if that, `softap_init` and
`softap_network_config` all succeed set `router_connected := true`
(`dns_set` is then called; it always runs to completion).  On
`EVENT_STAMODE_DISCONNECTED`: clear `router_connected`. -/
def wifi_handle_event_cb : WifiEvent → SysState → SysState
  | .gotIp opmode_ok mac_ok set_config_ok cfg orc, s =>
    if opmode_ok then
      if softap_init STATIONAP_MODE mac_ok set_config_ok then
        if (softap_network_config cfg orc).1 then
          { s with opmode := STATIONAP_MODE, router_connected := true }
        else
          { s with opmode := STATIONAP_MODE }
      else
        { s with opmode := STATIONAP_MODE }
    else
      s
  | .staDisconnected, s => { s with router_connected := false }

/-- System-level events: a rising edge on the button line, the firing of
each armed timer, the transport's terminal status, and the WiFi stack's
notifications (delivered only while a handler is registered). -/
inductive SysEvent
  | buttonEdge (p : AllocOutcome)
  | espTimeout
  | espLinkOver
  | waitTick
  | wdtTick
  | blinkTick
  | wifi (we : WifiEvent)
deriving DecidableEq, Repr

/-- One dispatch step of the cooperative, run-to-completion system: each
callback runs only when its trigger is live (interrupt enabled, timer
armed, handler registered, session running). -/
def sysStep : SysEvent → SysState → SysState
  | .buttonEdge p, s =>
    if s.intr_enabled then button_actuated_interrupt_handler p s else s
  | .espTimeout, s =>
    if s.esp.timeout_timer = some true then { s with esp := esptouch_fail_cb s.esp } else s
  | .espLinkOver, s =>
    if s.esp.running then { s with esp := esptouch_success_cb s.esp } else s
  | .waitTick, s =>
    if s.esptouch_wait_timer = some true then esptouch_over_timerfunc s else s
  | .wdtTick, s =>
    if s.router_conn_timeout_wdt = some true then router_conn_timeout_wdtfunc s else s
  | .blinkTick, s =>
    if s.led_blink_timer = some true then led_blink_timerfunc s else s
  | .wifi we, s =>
    if s.event_handler_set then wifi_handle_event_cb we s else s

/-- The state after `user_init` plus `gpio_pins_init` (user_main.c:288-338):
no timers, responder off, no event handler, `NULL_MODE`, LED off, output
power energized, interrupt enabled, ESP-TOUCH statics at their C initial
values. -/
def sys_state0 : SysState :=
  { intr_enabled := true,
    status_led := false,
    output_power := true,
    led_blink_timer := none,
    router_conn_timeout_wdt := none,
    esptouch_wait_timer := none,
    device_info_on := false,
    event_handler_set := false,
    router_connected := false,
    opmode := NULL_MODE,
    esp := esptouch_state0 }

/-- Reachable system states: fold the event sequence over the boot state. -/
def sysRun (evs : List SysEvent) : SysState :=
  evs.foldl (fun s e => sysStep e s) sys_state0

/-- The spec's derived lifecycle state: `Provisioning` while an ESP-TOUCH
session runs, `Routing` while the connection watchdog is armed, otherwise
`Idle`. -/
inductive LifecyclePhase
  | Idle
  | Provisioning
  | Routing
deriving DecidableEq, Repr

def lifecycle_phase (s : SysState) : LifecyclePhase :=
  if s.esp.running then .Provisioning
  else if s.router_conn_timeout_wdt = some true then .Routing
  else .Idle

/-- The re-entrancy invariant of the lifecycle controller: while a
provisioning session runs, while the connection watchdog is armed, and
while the ESP-TOUCH poll timer is armed, the button interrupt stays
disabled; the watchdog is only armed after the session has ended; and the
poll timer and the watchdog are never armed simultaneously. -/
def SysInv (s : SysState) : Prop :=
  (s.esp.running = true → s.intr_enabled = false) ∧
  (s.router_conn_timeout_wdt = some true → s.intr_enabled = false ∧ s.esp.running = false) ∧
  (s.esptouch_wait_timer = some true → s.intr_enabled = false) ∧
  ¬(s.esptouch_wait_timer = some true ∧ s.router_conn_timeout_wdt = some true)

/-! ## Helper lemmas -/

theorem alloc_blink_intr (p : AllocOutcome) (s : SysState) :
    (alloc_blink p s).intr_enabled = s.intr_enabled := by
  unfold alloc_blink; split_ifs <;> rfl

theorem alloc_blink_esp (p : AllocOutcome) (s : SysState) :
    (alloc_blink p s).esp = s.esp := by
  unfold alloc_blink; split_ifs <;> rfl

theorem alloc_blink_wdt (p : AllocOutcome) (s : SysState) :
    (alloc_blink p s).router_conn_timeout_wdt = s.router_conn_timeout_wdt := by
  unfold alloc_blink; split_ifs <;> rfl

theorem alloc_blink_wait (p : AllocOutcome) (s : SysState) :
    (alloc_blink p s).esptouch_wait_timer = s.esptouch_wait_timer := by
  unfold alloc_blink; split_ifs <;> rfl

theorem alloc_wdt_intr (p : AllocOutcome) (s : SysState) :
    (alloc_wdt p s).intr_enabled = s.intr_enabled := by
  unfold alloc_wdt; split_ifs <;> rfl

theorem alloc_wdt_esp (p : AllocOutcome) (s : SysState) :
    (alloc_wdt p s).esp = s.esp := by
  unfold alloc_wdt; split_ifs <;> rfl

theorem alloc_wdt_wait (p : AllocOutcome) (s : SysState) :
    (alloc_wdt p s).esptouch_wait_timer = s.esptouch_wait_timer := by
  unfold alloc_wdt; split_ifs <;> rfl

theorem alloc_wdt_wdt_some_true (p : AllocOutcome) (s : SysState) :
    (alloc_wdt p s).router_conn_timeout_wdt = some true ↔
      s.router_conn_timeout_wdt = some true := by
  unfold alloc_wdt; split_ifs with h1 h2 <;> simp_all

theorem router_disable_cb_fields (s : SysState) :
    (router_disable_cb s).intr_enabled = true ∧
    (router_disable_cb s).esp = s.esp ∧
    (router_disable_cb s).router_conn_timeout_wdt = none ∧
    (router_disable_cb s).led_blink_timer = none ∧
    (router_disable_cb s).esptouch_wait_timer = s.esptouch_wait_timer ∧
    (router_disable_cb s).status_led = false ∧
    (router_disable_cb s).output_power = s.output_power := by
  refine ⟨rfl, rfl, free_timer_eq_none _, free_timer_eq_none _, rfl, rfl, rfl⟩

theorem sysInv_disable (s : SysState) (hrun : s.esp.running = false)
    (hwait : s.esptouch_wait_timer ≠ some true) : SysInv (router_disable_cb s) := by
  obtain ⟨-, hesp, hwdt, -, hwt, -, -⟩ := router_disable_cb_fields s
  refine ⟨?_, ?_, ?_, ?_⟩
  · intro h; rw [hesp, hrun] at h; cases h
  · intro h; rw [hwdt] at h; cases h
  · intro h; rw [hwt] at h; exact absurd h hwait
  · intro h; rw [hwdt] at h; cases h.2

theorem esptouch_fail_cb_running (e : EspTouchState) :
    (esptouch_fail_cb e).running = true → e.running = true := by
  unfold esptouch_fail_cb; split_ifs <;> simp_all

theorem wifi_handle_event_cb_fields (we : WifiEvent) (s : SysState) :
    (wifi_handle_event_cb we s).intr_enabled = s.intr_enabled ∧
    (wifi_handle_event_cb we s).esp = s.esp ∧
    (wifi_handle_event_cb we s).router_conn_timeout_wdt = s.router_conn_timeout_wdt ∧
    (wifi_handle_event_cb we s).esptouch_wait_timer = s.esptouch_wait_timer := by
  cases we with
  | gotIp a b c cfg orc =>
    simp only [wifi_handle_event_cb]
    split_ifs <;> exact ⟨rfl, rfl, rfl, rfl⟩
  | staDisconnected => exact ⟨rfl, rfl, rfl, rfl⟩

theorem led_blink_timerfunc_fields (s : SysState) :
    (led_blink_timerfunc s).intr_enabled = s.intr_enabled ∧
    (led_blink_timerfunc s).esp = s.esp ∧
    (led_blink_timerfunc s).router_conn_timeout_wdt = s.router_conn_timeout_wdt ∧
    (led_blink_timerfunc s).esptouch_wait_timer = s.esptouch_wait_timer := by
  unfold led_blink_timerfunc status_led_on status_led_off
  split_ifs <;> exact ⟨rfl, rfl, rfl, rfl⟩

theorem sysInv_step (ev : SysEvent) (s : SysState) (h : SysInv s) : SysInv (sysStep ev s) := by
  obtain ⟨h1, h2, h3, h4⟩ := h
  cases ev with
  | buttonEdge p =>
    by_cases hi : s.intr_enabled
    · have hrun : s.esp.running = false := by
        cases hr : s.esp.running
        · rfl
        · rw [h1 hr] at hi; cases hi
      have hwait : s.esptouch_wait_timer ≠ some true := by
        intro hw; rw [h3 hw] at hi; cases hi
      simp only [sysStep, hi, if_true, button_actuated_interrupt_handler, router_enable]
      set s0 : SysState := { s with intr_enabled := false } with hs0
      set t : SysState := alloc_wdt p (alloc_blink p s0) with ht
      have htintr : t.intr_enabled = false := by
        rw [ht, alloc_wdt_intr, alloc_blink_intr]
      have htesp : t.esp = s.esp := by
        rw [ht, alloc_wdt_esp, alloc_blink_esp]
      have htwait : t.esptouch_wait_timer = s.esptouch_wait_timer := by
        rw [ht, alloc_wdt_wait, alloc_blink_wait]
      have htwdt : t.router_conn_timeout_wdt = some true → False := by
        intro hw
        rw [ht, alloc_wdt_wdt_some_true, alloc_blink_wdt] at hw
        exact absurd ((h2 hw).1) (by simp [hi])
      split_ifs with hc1 hc2
      · refine ⟨?_, ?_, ?_, ?_⟩
        · intro _; exact htintr
        · intro hw; exact absurd hw htwdt
        · intro _; exact htintr
        · intro hw; exact htwdt hw.2
      · exact sysInv_disable t (by rw [htesp]; exact hrun) (by rw [htwait]; exact hwait)
      · exact sysInv_disable t (by rw [htesp]; exact hrun) (by rw [htwait]; exact hwait)
    · simp only [sysStep, hi, if_false]
      exact ⟨h1, h2, h3, h4⟩
  | espTimeout =>
    simp only [sysStep]
    split_ifs with hc
    · refine ⟨?_, ?_, h3, h4⟩
      · intro hr; exact h1 (esptouch_fail_cb_running _ hr)
      · intro hw
        have hw1 : s.router_conn_timeout_wdt = some true := hw
        refine ⟨(h2 hw1).1, ?_⟩
        show (esptouch_fail_cb s.esp).running = false
        cases hr : (esptouch_fail_cb s.esp).running
        · rfl
        · have hx := esptouch_fail_cb_running _ hr
          simp [(h2 hw1).2] at hx
    · exact ⟨h1, h2, h3, h4⟩
  | espLinkOver =>
    simp only [sysStep]
    split_ifs with hc
    · refine ⟨?_, ?_, h3, h4⟩
      · intro hr; cases hr
      · intro hw; exact ⟨(h2 hw).1, rfl⟩
    · exact ⟨h1, h2, h3, h4⟩
  | waitTick =>
    simp only [sysStep]
    split_ifs with hc
    · have hintr : s.intr_enabled = false := h3 hc
      have hwdt : s.router_conn_timeout_wdt ≠ some true := fun hw => h4 ⟨hc, hw⟩
      unfold esptouch_over_timerfunc
      split_ifs with hr hsuc
      · exact ⟨h1, h2, h3, h4⟩
      · have hrun : s.esp.running = false := by
          cases hx : s.esp.running
          · rfl
          · rw [esptouch_is_running, hx] at hr; exact absurd rfl hr
        refine ⟨?_, ?_, ?_, ?_⟩
        · intro hx; exact hintr
        · intro _; exact ⟨hintr, hrun⟩
        · intro hx; cases hx
        · intro hx; cases hx.1
      · refine sysInv_disable _ ?_ ?_
        · show s.esp.running = false
          cases hx : s.esp.running
          · rfl
          · rw [esptouch_is_running, hx] at hr; exact absurd rfl hr
        · show ¬((none : Option Bool) = some true)
          intro hx; cases hx
    · exact ⟨h1, h2, h3, h4⟩
  | wdtTick =>
    simp only [sysStep]
    split_ifs with hc
    · unfold router_conn_timeout_wdtfunc
      split_ifs with hconn
      · exact ⟨h1, h2, h3, h4⟩
      · exact sysInv_disable s (h2 hc).2 (fun hw => h4 ⟨hw, hc⟩)
    · exact ⟨h1, h2, h3, h4⟩
  | blinkTick =>
    simp only [sysStep]
    split_ifs with hc
    · obtain ⟨f1, f2, f3, f4⟩ := led_blink_timerfunc_fields s
      rw [SysInv, f1, f2, f3, f4]
      exact ⟨h1, h2, h3, h4⟩
    · exact ⟨h1, h2, h3, h4⟩
  | wifi we =>
    simp only [sysStep]
    split_ifs with hc
    · obtain ⟨f1, f2, f3, f4⟩ := wifi_handle_event_cb_fields we s
      rw [SysInv, f1, f2, f3, f4]
      exact ⟨h1, h2, h3, h4⟩
    · exact ⟨h1, h2, h3, h4⟩

theorem sysInv_foldl (evs : List SysEvent) :
    ∀ s : SysState, SysInv s → SysInv (evs.foldl (fun s e => sysStep e s) s) := by
  induction evs with
  | nil => intro s h; exact h
  | cons e rest ih => intro s h; exact ih _ (sysInv_step e s h)

theorem sysInv_run (evs : List SysEvent) : SysInv (sysRun evs) := by
  refine sysInv_foldl evs sys_state0 ?_
  refine ⟨?_, ?_, ?_, ?_⟩ <;> intro h <;> simp [sys_state0, esptouch_state0] at h

theorem esptouch_excl_step (ev : EspTouchEvent) (e : EspTouchState)
    (h : (e.running && e.success) = false) :
    ((esptouch_step ev e).running && (esptouch_step ev e).success) = false := by
  cases ev with
  | start a => simp [esptouch_step, esptouch_init]
  | timeout =>
    simp only [esptouch_step]
    split_ifs with hc
    · unfold esptouch_fail_cb
      split_ifs with hl
      · simpa using h
      · simp
    · exact h
  | linkOver =>
    simp only [esptouch_step]
    split_ifs with hc
    · simp [esptouch_success_cb]
    · exact h
  | disable => simp [esptouch_step, esptouch_disable]

theorem esptouch_excl_foldl (evs : List EspTouchEvent) :
    ∀ e : EspTouchState, (e.running && e.success) = false →
      ((evs.foldl (fun e ev => esptouch_step ev e) e).running &&
        (evs.foldl (fun e ev => esptouch_step ev e) e).success) = false := by
  induction evs with
  | nil => intro e h; exact h
  | cons ev rest ih => intro e h; exact ih _ (esptouch_excl_step ev e h)

theorem esptouch_attempt_le_step (ev : EspTouchEvent) (e : EspTouchState)
    (h : e.attempt_count ≤ ESP_TOUCH_ATTEMPTS_LIMIT) :
    (esptouch_step ev e).attempt_count ≤ ESP_TOUCH_ATTEMPTS_LIMIT := by
  cases ev with
  | start a =>
    show (1 : Nat) ≤ ESP_TOUCH_ATTEMPTS_LIMIT
    decide
  | timeout =>
    simp only [esptouch_step]
    split_ifs with hc
    · unfold esptouch_fail_cb
      split_ifs with hl
      · show e.attempt_count + 1 ≤ ESP_TOUCH_ATTEMPTS_LIMIT
        omega
      · simpa using h
    · exact h
  | linkOver =>
    simp only [esptouch_step]
    split_ifs with hc
    · simpa [esptouch_success_cb] using h
    · exact h
  | disable => simpa [esptouch_disable] using h

theorem esptouch_attempt_le_foldl (evs : List EspTouchEvent) :
    ∀ e : EspTouchState, e.attempt_count ≤ ESP_TOUCH_ATTEMPTS_LIMIT →
      (evs.foldl (fun e ev => esptouch_step ev e) e).attempt_count ≤
        ESP_TOUCH_ATTEMPTS_LIMIT := by
  induction evs with
  | nil => intro e h; exact h
  | cons ev rest ih => intro e h; exact ih _ (esptouch_attempt_le_step ev e h)

/-! ## Claim theorems -/

/-- Claim C1, counterexample to the original statement: with two enabled,
fully specified slots and an installation oracle that rejects every rule,
`portmap_init` invokes `ip_portmap_add` only for the first slot, returns
failure, and never attempts the second slot, although that slot is enabled
and fully specified.  This refutes "a failed individual rule install never
aborts the processing of later slots". -/
theorem portmap_init_abort_counterexample :
    (portmap_init (fun _ => false)
      [⟨1, 6, 8883, 9, 8883, 2⟩, ⟨1, 17, 5000, 10, 5000, 1⟩]).1 = false ∧
    (portmap_init (fun _ => false)
      [⟨1, 6, 8883, 9, 8883, 2⟩, ⟨1, 17, 5000, 10, 5000, 1⟩]).2
        = [⟨1, 6, 8883, 9, 8883, 2⟩] ∧
    (⟨1, 17, 5000, 10, 5000, 1⟩ : PortmapSlot).enable ≠ 0 ∧
    (⟨1, 17, 5000, 10, 5000, 1⟩ : PortmapSlot).proto ≠ 0 ∧
    (⟨1, 17, 5000, 10, 5000, 1⟩ : PortmapSlot).mport ≠ 0 ∧
    (⟨1, 17, 5000, 10, 5000, 1⟩ : PortmapSlot).daddr ≠ 0 ∧
    (⟨1, 17, 5000, 10, 5000, 1⟩ : PortmapSlot).dport ≠ 0 ∧
    (⟨1, 17, 5000, 10, 5000, 1⟩ : PortmapSlot).dir ≠ 0 ∧
    (⟨1, 17, 5000, 10, 5000, 1⟩ : PortmapSlot) ∉
      (portmap_init (fun _ => false)
        [⟨1, 6, 8883, 9, 8883, 2⟩, ⟨1, 17, 5000, 10, 5000, 1⟩]).2 := by
  decide

/-- Claim C1 as amended: when an enabled slot with all required fields
non-zero fails to install (`ip_portmap_add` returns failure),
`portmap_init` returns failure immediately and does not attempt any of the
remaining slots; the attempted-install list ends at the failing slot. -/
theorem portmap_init_abort_on_failed_add :
    ∀ (add_ok : PortmapSlot → Bool) (s : PortmapSlot) (rest : List PortmapSlot),
      s.enable ≠ 0 → s.proto ≠ 0 → s.mport ≠ 0 → s.daddr ≠ 0 → s.dport ≠ 0 → s.dir ≠ 0 →
      add_ok s = false →
      portmap_init add_ok (s :: rest) = (false, [s]) := by
  intro add_ok s rest h1 h2 h3 h4 h5 h6 hf
  rw [portmap_init, if_pos h1, if_pos ⟨h2, h3, h4, h5, h6⟩, hf]
  rfl

/-- Witness for `portmap_init_abort_on_failed_add` at a concrete
configuration and oracle. -/
theorem portmap_init_abort_on_failed_add_witness :
    portmap_init (fun _ => false) [⟨1, 6, 8883, 9, 8883, 2⟩, ⟨1, 17, 5000, 10, 5000, 1⟩]
      = (false, [⟨1, 6, 8883, 9, 8883, 2⟩]) :=
  portmap_init_abort_on_failed_add (fun _ => false) ⟨1, 6, 8883, 9, 8883, 2⟩
    [⟨1, 17, 5000, 10, 5000, 1⟩] (by decide) (by decide) (by decide) (by decide)
    (by decide) (by decide) rfl

/-- Claim C2: the attempt counter of a provisioning session starts at 1
(`esptouch_init`), increases by exactly 1 on each timeout-triggered retry
below the limit while the session keeps running, and never exceeds
`ESP_TOUCH_ATTEMPTS_LIMIT` in any reachable module state; after exactly
`ESP_TOUCH_ATTEMPTS_LIMIT` consecutive timeouts the session reports
failure (`esptouch_is_running` and `esptouch_was_successful` both false),
and in the full system the poll timer's next tick brings the device to the
`Idle` phase with the button interrupt re-enabled. -/
theorem esptouch_attempt_count_spec :
    (∀ (a : Bool) (e : EspTouchState), (esptouch_init a e).attempt_count = 1) ∧
    (∀ evs : List EspTouchEvent,
      (esptouch_run evs).attempt_count ≤ ESP_TOUCH_ATTEMPTS_LIMIT) ∧
    (∀ e : EspTouchState, e.timeout_timer = some true →
      e.attempt_count < ESP_TOUCH_ATTEMPTS_LIMIT →
      (esptouch_step .timeout e).attempt_count = e.attempt_count + 1 ∧
      (esptouch_step .timeout e).running = e.running) ∧
    (esptouch_is_running
        (esptouch_run (.start true :: List.replicate ESP_TOUCH_ATTEMPTS_LIMIT .timeout))
        = false ∧
      esptouch_was_successful
        (esptouch_run (.start true :: List.replicate ESP_TOUCH_ATTEMPTS_LIMIT .timeout))
        = false ∧
      (esptouch_run
          (.start true :: List.replicate ESP_TOUCH_ATTEMPTS_LIMIT .timeout)).attempt_count
        = ESP_TOUCH_ATTEMPTS_LIMIT) ∧
    (lifecycle_phase (sysRun [.buttonEdge ⟨true, true, true, true⟩,
        .espTimeout, .espTimeout, .espTimeout, .waitTick]) = .Idle ∧
      (sysRun [.buttonEdge ⟨true, true, true, true⟩,
        .espTimeout, .espTimeout, .espTimeout, .waitTick]).intr_enabled = true) := by
  refine ⟨?_, ?_, ?_, ?_, ?_⟩
  · intro a e; rfl
  · intro evs; exact esptouch_attempt_le_foldl evs esptouch_state0 (by decide)
  · intro e ht hl
    refine ⟨?_, ?_⟩ <;> simp [esptouch_step, ht, esptouch_fail_cb, hl]
  · exact ⟨by decide, by decide, by decide⟩
  · exact ⟨by decide, by decide⟩

/-- Witness for `esptouch_attempt_count_spec`: a first-attempt timeout
with an armed timer bumps the counter from 1 to 2 and keeps the session
running. -/
theorem esptouch_attempt_count_spec_witness :
    (esptouch_step .timeout
        { running := true, success := false, attempt_count := 1,
          timeout_timer := some true }).attempt_count = 1 + 1 ∧
    (esptouch_step .timeout
        { running := true, success := false, attempt_count := 1,
          timeout_timer := some true }).running = true :=
  esptouch_attempt_count_spec.2.2.1
    { running := true, success := false, attempt_count := 1, timeout_timer := some true }
    rfl (by decide)

/-- Claim C3: teardown is idempotent — running `router_disable_cb` twice
from any state yields exactly the state one run yields — and one run
always leaves both timer handles NULL (hence disarmed), the status
indicator off, and the button interrupt enabled; every individual step is
a no-op when its target is already absent (the NULL-handle guards). -/
theorem router_disable_cb_idempotent :
    ∀ s : SysState,
      router_disable_cb (router_disable_cb s) = router_disable_cb s ∧
      (router_disable_cb s).led_blink_timer = none ∧
      (router_disable_cb s).router_conn_timeout_wdt = none ∧
      (router_disable_cb s).status_led = false ∧
      (router_disable_cb s).intr_enabled = true := by
  intro s
  refine ⟨?_, free_timer_eq_none _, free_timer_eq_none _, rfl, rfl⟩
  unfold router_disable_cb
  simp [free_timer_eq_none]

/-- Claim C4: in every reachable system state whose lifecycle phase is
`Provisioning` or `Routing`, the button interrupt is disabled and a button
trigger is a no-op, so the state machine can never (re-)enter
`Provisioning` from either phase; the interrupt is disabled as the
handler's first action and re-enabled only by teardown. -/
theorem no_reentry_into_provisioning :
    ∀ evs : List SysEvent,
      (lifecycle_phase (sysRun evs) = .Provisioning ∨
        lifecycle_phase (sysRun evs) = .Routing) →
      (sysRun evs).intr_enabled = false ∧
      ∀ p : AllocOutcome, sysStep (.buttonEdge p) (sysRun evs) = sysRun evs := by
  intro evs h
  obtain ⟨h1, h2, h3, h4⟩ := sysInv_run evs
  have hintr : (sysRun evs).intr_enabled = false := by
    by_cases hr : (sysRun evs).esp.running = true
    · exact h1 hr
    · have hw : (sysRun evs).router_conn_timeout_wdt = some true := by
        unfold lifecycle_phase at h
        rw [if_neg hr] at h
        by_cases hx : (sysRun evs).router_conn_timeout_wdt = some true
        · exact hx
        · rw [if_neg hx] at h
          rcases h with h | h <;> exact absurd h (by decide)
      exact (h2 hw).1
  refine ⟨hintr, fun p => ?_⟩
  simp [sysStep, hintr]

/-- Witness for `no_reentry_into_provisioning`: after one successful
button press the device is in `Provisioning`, the interrupt is disabled
and a second button edge changes nothing. -/
theorem no_reentry_into_provisioning_witness :
    (sysRun [.buttonEdge ⟨true, true, true, true⟩]).intr_enabled = false ∧
    sysStep (.buttonEdge ⟨true, true, true, true⟩)
        (sysRun [.buttonEdge ⟨true, true, true, true⟩])
      = sysRun [.buttonEdge ⟨true, true, true, true⟩] := by
  have h := no_reentry_into_provisioning [.buttonEdge ⟨true, true, true, true⟩]
    (Or.inl (by decide))
  exact ⟨h.1, h.2 ⟨true, true, true, true⟩⟩

/-- Claim C5: `portmap_update` rewrites only the mapping-address field of
each valid rule to the new address; every other field of every rule is
identical before and after, and an invalid entry is identical as a whole. -/
theorem portmap_update_frame :
    ∀ (addr : Nat) (table : List PortmapEntry) (i : Nat) (e e1 : PortmapEntry),
      table[i]? = some e →
      (portmap_update addr table)[i]? = some e1 →
      (e1.valid = e.valid ∧ e1.proto = e.proto ∧ e1.mport = e.mport ∧
        e1.daddr = e.daddr ∧ e1.dport = e.dport) ∧
      (e.valid ≠ 0 → e1.maddr = addr) ∧
      (e.valid = 0 → e1 = e) := by
  intro addr table i e e1 h1 h2
  rw [portmap_update, List.getElem?_map, h1] at h2
  have h3 : (if e.valid ≠ 0 then { e with maddr := addr } else e) = e1 :=
    Option.some_injective _ h2
  by_cases hv : e.valid = 0
  · rw [if_neg (by simp [hv])] at h3
    subst h3
    simp [hv]
  · rw [if_pos hv] at h3
    subst h3
    simp [hv]

/-- Witness for `portmap_update_frame`: a one-entry valid table updated to
address 777 keeps every field but `maddr`. -/
theorem portmap_update_frame_witness :
    ((⟨1, 6, 777, 8883, 9, 8883⟩ : PortmapEntry).maddr = 777) ∧
    ((⟨1, 6, 777, 8883, 9, 8883⟩ : PortmapEntry).proto
      = (⟨1, 6, 0, 8883, 9, 8883⟩ : PortmapEntry).proto) := by
  have h := portmap_update_frame 777 [⟨1, 6, 0, 8883, 9, 8883⟩] 0
    ⟨1, 6, 0, 8883, 9, 8883⟩ ⟨1, 6, 777, 8883, 9, 8883⟩ (by decide) (by decide)
  exact ⟨h.2.1 (by decide), h.1.2.1⟩

/-- Claim C6: a slot for which `ip_portmap_add` is invoked by
`portmap_init` necessarily has its enable flag and all five required
fields non-zero; contrapositively, a slot with any required field equal to
zero is never installed, regardless of its enable flag. -/
theorem portmap_init_zero_field_never_installed :
    ∀ (add_ok : PortmapSlot → Bool) (slots : List PortmapSlot) (s : PortmapSlot),
      s ∈ (portmap_init add_ok slots).2 →
      s.enable ≠ 0 ∧ s.proto ≠ 0 ∧ s.mport ≠ 0 ∧ s.daddr ≠ 0 ∧
        s.dport ≠ 0 ∧ s.dir ≠ 0 := by
  intro add_ok slots
  induction slots with
  | nil => intro s h; simp [portmap_init] at h
  | cons hd tl ih =>
    intro s h
    rw [portmap_init] at h
    split_ifs at h with he hf ha
    · simp only [List.mem_cons] at h
      rcases h with rfl | hmem
      · exact ⟨he, hf.1, hf.2.1, hf.2.2.1, hf.2.2.2.1, hf.2.2.2.2⟩
      · exact ih s hmem
    · simp only [List.mem_singleton] at h
      subst h
      exact ⟨he, hf.1, hf.2.1, hf.2.2.1, hf.2.2.2.1, hf.2.2.2.2⟩
    · exact ih s h
    · exact ih s h

/-- Witness for `portmap_init_zero_field_never_installed`: the first (and
only) installed slot of a singleton configuration has all fields
non-zero. -/
theorem portmap_init_zero_field_never_installed_witness :
    (⟨1, 6, 8883, 9, 8883, 2⟩ : PortmapSlot).proto ≠ 0 ∧
    (⟨1, 6, 8883, 9, 8883, 2⟩ : PortmapSlot).dir ≠ 0 := by
  have h := portmap_init_zero_field_never_installed (fun _ => true)
    [⟨1, 6, 8883, 9, 8883, 2⟩] ⟨1, 6, 8883, 9, 8883, 2⟩ (by decide)
  exact ⟨h.2.1, h.2.2.2.2.2⟩

/-- Claim C7: if any step of `softap_network_config` fails, all remaining
steps are skipped (the call trace stops at the failing call; in
particular `ip_napt_enable` and `wifi_set_broadcast_if` are never
reached), the function returns failure, on such failure the got-IP
handler leaves `router_connected` unchanged (never sets it true), and an
armed watchdog whose tick observes a disconnected router performs the full
teardown. -/
theorem softap_network_config_failure_aborts :
    ∀ (cfg : ApNetConfig) (orc : NetOracle),
      (orc.dhcps_stop_ok = false ∨ orc.set_ip_info_ok = false ∨
        orc.set_dhcps_lease_ok = false ∨ orc.dhcps_start_ok = false) →
      (softap_network_config cfg orc).1 = false ∧
      (orc.dhcps_stop_ok = false →
        (softap_network_config cfg orc).2 = [.dhcpsStop]) ∧
      (orc.dhcps_stop_ok = true → orc.set_ip_info_ok = false →
        (softap_network_config cfg orc).2 =
          [.dhcpsStop,
           .setIpInfo (softap_own_ip cfg) cfg.network_netmask cfg.network_gw]) ∧
      (orc.dhcps_stop_ok = true → orc.set_ip_info_ok = true →
        orc.set_dhcps_lease_ok = false →
        (softap_network_config cfg orc).2 =
          [.dhcpsStop,
           .setIpInfo (softap_own_ip cfg) cfg.network_netmask cfg.network_gw,
           .setDhcpsLease cfg.dhcp_start_addr cfg.dhcp_stop_addr]) ∧
      (orc.dhcps_stop_ok = true → orc.set_ip_info_ok = true →
        orc.set_dhcps_lease_ok = true → orc.dhcps_start_ok = false →
        (softap_network_config cfg orc).2 =
          [.dhcpsStop,
           .setIpInfo (softap_own_ip cfg) cfg.network_netmask cfg.network_gw,
           .setDhcpsLease cfg.dhcp_start_addr cfg.dhcp_stop_addr,
           .dhcpsStart]) ∧
      (∀ (s : SysState) (opmode_ok mac_ok set_config_ok : Bool),
        (sysStep (.wifi (.gotIp opmode_ok mac_ok set_config_ok cfg orc)) s).router_connected
          = s.router_connected) ∧
      (∀ t : SysState, t.router_conn_timeout_wdt = some true →
        t.router_connected = false →
        sysStep .wdtTick t = router_disable_cb t) := by
  intro cfg orc h
  rcases orc with ⟨b1, b2, b3, b4⟩
  have hres : (softap_network_config cfg ⟨b1, b2, b3, b4⟩).1 = false := by
    rcases h with h | h | h | h <;>
      cases b1 <;> cases b2 <;> cases b3 <;> cases b4 <;>
        simp_all [softap_network_config]
  refine ⟨hres, ?_, ?_, ?_, ?_, ?_, ?_⟩
  · intro hb1
    have e1 : b1 = false := hb1
    simp [softap_network_config, e1]
  · intro hb1 hb2
    have e1 : b1 = true := hb1
    have e2 : b2 = false := hb2
    simp [softap_network_config, e1, e2]
  · intro hb1 hb2 hb3
    have e1 : b1 = true := hb1
    have e2 : b2 = true := hb2
    have e3 : b3 = false := hb3
    simp [softap_network_config, e1, e2, e3]
  · intro hb1 hb2 hb3 hb4
    have e1 : b1 = true := hb1
    have e2 : b2 = true := hb2
    have e3 : b3 = true := hb3
    have e4 : b4 = false := hb4
    simp [softap_network_config, e1, e2, e3, e4]
  · intro s o m c
    simp only [sysStep]
    split_ifs with hh
    · simp only [wifi_handle_event_cb]
      split_ifs with ho hsi hnc
      · rw [hres] at hnc; cases hnc
      · rfl
      · rfl
      · rfl
    · rfl
  · intro t hw hc
    simp [sysStep, router_conn_timeout_wdtfunc, is_connected, hw, hc]

/-- Witness for `softap_network_config_failure_aborts`: with the
user_config.h subnet (host part deliberately set to 77) and a failing
`wifi_set_ip_info`, the call trace ends at `setIpInfo` and the overall
result is failure. -/
theorem softap_network_config_failure_aborts_witness :
    (softap_network_config
      ⟨⟨192, 168, 13, 77⟩, ⟨255, 255, 255, 0⟩, ⟨192, 168, 13, 1⟩,
       ⟨192, 168, 13, 2⟩, ⟨192, 168, 13, 64⟩⟩ ⟨true, false, true, true⟩).1 = false ∧
    (softap_network_config
      ⟨⟨192, 168, 13, 77⟩, ⟨255, 255, 255, 0⟩, ⟨192, 168, 13, 1⟩,
       ⟨192, 168, 13, 2⟩, ⟨192, 168, 13, 64⟩⟩ ⟨true, false, true, true⟩).2 =
      [.dhcpsStop, .setIpInfo ⟨192, 168, 13, 1⟩ ⟨255, 255, 255, 0⟩ ⟨192, 168, 13, 1⟩] := by
  have h := softap_network_config_failure_aborts
    ⟨⟨192, 168, 13, 77⟩, ⟨255, 255, 255, 0⟩, ⟨192, 168, 13, 1⟩,
     ⟨192, 168, 13, 2⟩, ⟨192, 168, 13, 64⟩⟩ ⟨true, false, true, true⟩
    (Or.inr (Or.inl rfl))
  exact ⟨h.1, h.2.2.1 rfl rfl⟩

/-- Claim C8: every `wifi_set_ip_info` call issued by
`softap_network_config` carries an access-point address whose fourth
(host) octet is 1, regardless of the host part of the configured
`WIFI_AP_NETWORK_ADDR`. -/
theorem softap_network_config_host_octet_one :
    ∀ (cfg : ApNetConfig) (orc : NetOracle) (ip netmask gw : IpAddr),
      NetCall.setIpInfo ip netmask gw ∈ (softap_network_config cfg orc).2 →
      ip.o4 = 1 := by
  intro cfg orc ip netmask gw h
  rcases orc with ⟨b1, b2, b3, b4⟩
  cases b1 <;> cases b2 <;> cases b3 <;> cases b4 <;>
    simp [softap_network_config, softap_own_ip] at h <;>
    simp [h.1]

/-- Witness for `softap_network_config_host_octet_one`: a configured
address of 192.168.13.77 still yields host octet 1. -/
theorem softap_network_config_host_octet_one_witness :
    (softap_own_ip
      ⟨⟨192, 168, 13, 77⟩, ⟨255, 255, 255, 0⟩, ⟨192, 168, 13, 1⟩,
       ⟨192, 168, 13, 2⟩, ⟨192, 168, 13, 64⟩⟩).o4 = 1 :=
  softap_network_config_host_octet_one
    ⟨⟨192, 168, 13, 77⟩, ⟨255, 255, 255, 0⟩, ⟨192, 168, 13, 1⟩,
     ⟨192, 168, 13, 2⟩, ⟨192, 168, 13, 64⟩⟩
    ⟨true, true, true, true⟩
    (softap_own_ip
      ⟨⟨192, 168, 13, 77⟩, ⟨255, 255, 255, 0⟩, ⟨192, 168, 13, 1⟩,
       ⟨192, 168, 13, 2⟩, ⟨192, 168, 13, 64⟩⟩)
    ⟨255, 255, 255, 0⟩ ⟨192, 168, 13, 1⟩ (by decide)

/-- Claim C9: teardown never changes the output-power relay: the relay
level is identical before and after `router_disable_cb` from every
starting state (and the provisioning module's state is untouched as
well). -/
theorem router_disable_cb_preserves_output_power :
    ∀ s : SysState,
      (router_disable_cb s).output_power = s.output_power ∧
      (router_disable_cb s).esp = s.esp := by
  intro s
  exact ⟨rfl, rfl⟩

/-- Claim C10: in every reachable state of the provisioning module,
`esptouch_is_running` and `esptouch_was_successful` are never both true:
only `esptouch_success_cb` sets success, and it clears running in the same
step. -/
theorem esptouch_running_success_mutually_exclusive :
    ∀ evs : List EspTouchEvent,
      (esptouch_is_running (esptouch_run evs) &&
        esptouch_was_successful (esptouch_run evs)) = false := by
  intro evs
  exact esptouch_excl_foldl evs esptouch_state0 rfl

end NaptRouter
